import Mathlib

/-!
Verification of the atmospheric chemistry notebook `hu1.ipynb`.

The notebook is a linear sequence of closed-form scalar computations over
hard-coded constants.  We embed it shallowly: every Python float literal
becomes the exact rational it denotes, exact rational arithmetic is carried
out in `ℚ`, and the two Arrhenius rate constants that use `math.exp` live in
`ℝ` via `Real.exp`.  The float power `(t / 300)**-3.0` has an integer-valued
exponent on a positive base and is embedded as `zpow (-3)`.
-/

namespace Hu1

/-! ### Constants of cell 2 (conditions, concentrations, reaction rates) -/

/-- `p_sfc = 101325`, surface pressure in Pa. -/
def p_sfc : ℚ := 101325

/-- `p_10 = 28000`, pressure at 10 km in Pa. -/
def p_10 : ℚ := 28000

/-- `R = 8.31`, gas constant. -/
def R : ℚ := 831 / 100

/-- `NA = 6.022 * 1e23`, the Avogadro number. -/
def NA : ℚ := 6022 * 10 ^ 20

/-- `t_sfc = 298`, surface temperature in K. -/
def t_sfc : ℚ := 298

/-- `ho2 = 40 * 1e-12`, HO2 volume mixing ratio. -/
def ho2 : ℚ := 40 / 10 ^ 12

/-- `ch3o2 = 25 * 1e-12`, CH3O2 volume mixing ratio. -/
def ch3o2 : ℚ := 25 / 10 ^ 12

/-- `o3 = 40 * 1e-9`, O3 volume mixing ratio. -/
def o3 : ℚ := 40 / 10 ^ 9

/-- `oh_c = 1e6`, OH number density (already molec per cm3). -/
def oh_c : ℚ := 10 ^ 6

/-- `f = 0.15`. -/
def f : ℚ := 15 / 100

/-- `j_o1d = 2.5 * 1e-5`, O1D photolysis rate. -/
def j_o1d : ℚ := 25 / 10 ^ 6

/-- `k1 = 8.5 * 1e-12`. -/
def k1 : ℚ := 85 / 10 ^ 13

/-- `k2 = 8.5 * 1e-12` (the notebook assigns `k1 = k2`). -/
def k2 : ℚ := 85 / 10 ^ 13

/-- `k1_l = 7.3 * 1e-14`. -/
def k1_l : ℚ := 73 / 10 ^ 15

/-- `k2_l = 2 * 1e-15`. -/
def k2_l : ℚ := 2 / 10 ^ 15

/-! ### Cell 3: the unit converter and the converted densities -/

/-- The converter of cell 3:
`def vol_to_dens(vol, temp, pressure): return((vol * NA * pressure) / (R * temp * 1e6))`. -/
def vol_to_dens (vol temp pressure : ℚ) : ℚ :=
  (vol * NA * pressure) / (R * temp * 10 ^ 6)

/-- `ho2_c = vol_to_dens(ho2, t_sfc, p_sfc)`. -/
def ho2_c : ℚ := vol_to_dens ho2 t_sfc p_sfc

/-- `ch3o2_c = vol_to_dens(ch3o2, t_sfc, p_sfc)`. -/
def ch3o2_c : ℚ := vol_to_dens ch3o2 t_sfc p_sfc

/-- `o3_c = vol_to_dens(o3, t_sfc, p_sfc)`. -/
def o3_c : ℚ := vol_to_dens o3 t_sfc p_sfc

/-! ### Cell 4: the critical NO concentration -/

/-- `no_crit = (o3_c * (k1_l * oh_c + k2_l * ho2_c + f * j_o1d)) / (k1 * ho2_c + k2 * ch3o2_c)`. -/
def no_crit : ℚ :=
  (o3_c * (k1_l * oh_c + k2_l * ho2_c + f * j_o1d)) / (k1 * ho2_c + k2 * ch3o2_c)

/-! ### Constants of cell 6 (lifetime section) -/

/-- `j_no2 = 1e-2`, NO2 photolysis rate. -/
def j_no2 : ℚ := 1 / 100

/-- `t_10 = 220`, temperature at 10 km in K. -/
def t_10 : ℚ := 220

/-- `o3_sfc = 40 * 1e-9`. -/
def o3_sfc : ℚ := 40 / 10 ^ 9

/-- `o3_10 = 100 * 1e-9`. -/
def o3_10 : ℚ := 100 / 10 ^ 9

/-- `n2 = 78.08 * 1e-2`, N2 volume mixing ratio in air. -/
def n2 : ℚ := 7808 / 10 ^ 4

/-- `o3_sfc_c = vol_to_dens(o3_sfc, t_sfc, p_sfc)`. -/
def o3_sfc_c : ℚ := vol_to_dens o3_sfc t_sfc p_sfc

/-- `o3_10_c = vol_to_dens(o3_10, t_10, p_10)`. -/
def o3_10_c : ℚ := vol_to_dens o3_10 t_10 p_10

/-- `n2_sfc_c = vol_to_dens(n2, t_sfc, p_sfc)`. -/
def n2_sfc_c : ℚ := vol_to_dens n2 t_sfc p_sfc

/-- `n2_10_c = vol_to_dens(n2, t_10, p_10)`. -/
def n2_10_c : ℚ := vol_to_dens n2 t_10 p_10

/-- `k_sfc = 1.4 * 1e-12 * math.exp(-1310 / t_sfc)`. -/
noncomputable def k_sfc : ℝ := 14 / 10 ^ 13 * Real.exp (-1310 / (t_sfc : ℝ))

/-- `k_10 = 1.4 * 1e-12 * math.exp(-1310 / t_10)`. -/
noncomputable def k_10 : ℝ := 14 / 10 ^ 13 * Real.exp (-1310 / (t_10 : ℝ))

/-- `kn_sfc = 3.3 * 1e-30 * (t_sfc / 300)**-3.0 * n2_sfc_c`.  The float power has
integer exponent -3 on the positive base `298/300`, embedded as `zpow (-3)`. -/
def kn_sfc : ℚ := 33 / 10 ^ 31 * (t_sfc / 300) ^ (-3 : ℤ) * n2_sfc_c

/-- `kn_10 = 3.3 * 1e-30 * (t_10 / 300)**-3.0 * n2_10_c`. -/
def kn_10 : ℚ := 33 / 10 ^ 31 * (t_10 / 300) ^ (-3 : ℤ) * n2_10_c

/-! ### Cells 7 to 10: partitioning ratios and lifetimes -/

/-- `rat_sfc = (j_no2) / (k_sfc * o3_sfc_c)`. -/
noncomputable def rat_sfc : ℝ := (j_no2 : ℝ) / (k_sfc * (o3_sfc_c : ℝ))

/-- `rat_10 = (j_no2) / (k_10 * o3_10_c)`. -/
noncomputable def rat_10 : ℝ := (j_no2 : ℝ) / (k_10 * (o3_10_c : ℝ))

/-- `tau_no2_sfc = 1 / (kn_sfc * oh_c)`. -/
def tau_no2_sfc : ℚ := 1 / (kn_sfc * oh_c)

/-- `tau_no2_10 = 1 / (kn_10 * oh_c)`. -/
def tau_no2_10 : ℚ := 1 / (kn_10 * oh_c)

/-- `tau_nox_sfc = tau_no2_sfc * (1 + rat_sfc)`. -/
noncomputable def tau_nox_sfc : ℝ := (tau_no2_sfc : ℝ) * (1 + rat_sfc)

/-- `tau_nox_10 = tau_no2_10 * (1 + rat_10)`. -/
noncomputable def tau_nox_10 : ℝ := (tau_no2_10 : ℝ) * (1 + rat_10)

/-! ### Fault model of the converter

Python raises ZeroDivisionError exactly when the denominator of a division is
zero; there is no input validation anywhere in the notebook.  We model one
call of `vol_to_dens` including that fault channel: `none` means the call
raises, `some x` means it returns the value `x`. -/

/-- One Python call of `vol_to_dens`: raises (is `none`) exactly when the
denominator `R * temp * 1e6` is zero, otherwise returns the quotient. -/
def vol_to_dens_run (vol temp pressure : ℚ) : Option ℚ :=
  if R * temp * 10 ^ 6 = 0 then none
  else some ((vol * NA * pressure) / (R * temp * 10 ^ 6))

/-! ### Exact values of the rational intermediates -/

lemma o3_sfc_c_val : o3_sfc_c = 40678610000000000 / 41273 := by
  norm_num [o3_sfc_c, vol_to_dens, o3_sfc, t_sfc, p_sfc, NA, R]

lemma o3_10_c_val : o3_10_c = 8430800000000000 / 9141 := by
  norm_num [o3_10_c, vol_to_dens, o3_10, t_10, p_10, NA, R]

lemma tau_no2_sfc_val : tau_no2_sfc = 3413224476925000 / 221092313211 := by
  norm_num [tau_no2_sfc, kn_sfc, n2_sfc_c, vol_to_dens, n2, t_sfc, p_sfc, NA, R, oh_c]

lemma tau_no2_10_val : tau_no2_10 = 576073437500 / 34713819 := by
  norm_num [tau_no2_10, kn_10, n2_10_c, vol_to_dens, n2, t_10, p_10, NA, R, oh_c]

/-! ### Claims about the rational part -/

/-- C1: with the literal inputs of cell 2, the critical NO concentration
`no_crit` is 4.19e+08 molec per cm3 within 1 percent relative tolerance. -/
theorem no_crit_approx : |no_crit / (419 * 10 ^ 6) - 1| ≤ 1 / 100 := by
  have h : no_crit = 3826302384000000 / 9121333 := by
    norm_num [no_crit, o3_c, ho2_c, ch3o2_c, vol_to_dens, k1, k2, k1_l, k2_l, f,
      j_o1d, oh_c, ho2, ch3o2, o3, t_sfc, p_sfc, NA, R]
  rw [h, abs_le]
  norm_num

/-- C2: for every mixing ratio, temperature and pressure, `vol_to_dens`
returns exactly `v * NA * P / (R * T * 1e6)` with `NA = 6.022e23` and
`R = 8.31`.  The embedding is a plain function of its three arguments, which
is the determinism and purity stated by the spec. -/
theorem vol_to_dens_formula :
    NA = 6022 * 10 ^ 20 ∧ R = 831 / 100 ∧
      ∀ v t p : ℚ, vol_to_dens v t p = v * (6022 * 10 ^ 20) * p / ((831 / 100) * t * 10 ^ 6) := by
  exact ⟨rfl, rfl, fun v t p => rfl⟩

/-- C7: `vol_to_dens` is linear in the mixing ratio and in the pressure,
inversely proportional to the temperature, and sends mixing ratio 0 to 0. -/
theorem vol_to_dens_linearity (v w t p q a c : ℚ) (hc : c ≠ 0) :
    vol_to_dens (a * v) t p = a * vol_to_dens v t p ∧
      vol_to_dens (v + w) t p = vol_to_dens v t p + vol_to_dens w t p ∧
      vol_to_dens v t (a * p) = a * vol_to_dens v t p ∧
      vol_to_dens v t (p + q) = vol_to_dens v t p + vol_to_dens v t q ∧
      vol_to_dens v (c * t) p = vol_to_dens v t p / c ∧
      vol_to_dens 0 t p = 0 := by
  rcases eq_or_ne t 0 with rfl | ht
  · simp [vol_to_dens, mul_div_assoc, add_mul, add_div]
  · refine ⟨?_, ?_, ?_, ?_, ?_, ?_⟩
    · simp only [vol_to_dens, NA, R] ; ring
    · simp only [vol_to_dens, NA, R] ; ring
    · simp only [vol_to_dens, NA, R] ; ring
    · simp only [vol_to_dens, NA, R] ; ring
    · simp only [vol_to_dens, NA, R] ; field_simp ; left ; ring
    · simp only [vol_to_dens, NA, R] ; ring

/-- Witness for C7 at `v = 2, w = 3, t = 5, p = 7, q = 11, a = 13, c = 17`. -/
theorem vol_to_dens_linearity_witness :
    vol_to_dens (13 * 2) 5 7 = 13 * vol_to_dens 2 5 7 ∧
      vol_to_dens (2 + 3) 5 7 = vol_to_dens 2 5 7 + vol_to_dens 3 5 7 ∧
      vol_to_dens 2 5 (13 * 7) = 13 * vol_to_dens 2 5 7 ∧
      vol_to_dens 2 5 (7 + 11) = vol_to_dens 2 5 7 + vol_to_dens 2 5 11 ∧
      vol_to_dens 2 (17 * 5) 7 = vol_to_dens 2 5 7 / 17 ∧
      vol_to_dens 0 5 7 = 0 :=
  vol_to_dens_linearity 2 3 5 7 11 13 17 (by norm_num)

/-- C9: the converted density depends on temperature and pressure only
through their quotient: scaling both by the same nonzero factor leaves
`vol_to_dens` unchanged. -/
theorem vol_to_dens_scale_invariant (v t p c : ℚ) (ht : t ≠ 0) (hc : c ≠ 0) :
    vol_to_dens v (c * t) (c * p) = vol_to_dens v t p := by
  simp only [vol_to_dens, NA, R]
  field_simp
  ring

/-- Witness for C9 at `v = 3, t = 7, p = 11, c = 5`. -/
theorem vol_to_dens_scale_invariant_witness :
    vol_to_dens 3 (5 * 7) (5 * 11) = vol_to_dens 3 7 11 :=
  vol_to_dens_scale_invariant 3 7 11 5 (by norm_num) (by norm_num)

/-! ### Rational enclosures of the two Arrhenius exponentials

`1310 / 298 = 8 * (655 / 1192)` and `1310 / 220 = 8 * (131 / 176)`, and both
eighth-part arguments lie in `[0, 1]`, so degree-7 Taylor sums with the
standard remainder bound enclose each exponential. -/

lemma exp_q1_lb : (17323805 / 10 ^ 7 : ℝ) ≤ Real.exp (655 / 1192) := by
  have h := Real.sum_le_exp_of_nonneg (x := 655 / 1192) (by norm_num) 8
  refine le_trans ?_ h
  simp only [Finset.sum_range_succ, Finset.sum_range_zero, Nat.factorial]
  norm_num

lemma exp_q1_ub : Real.exp (655 / 1192) ≤ 17323809 / 10 ^ 7 := by
  have h := Real.exp_bound' (x := 655 / 1192) (by norm_num) (by norm_num) (n := 8) (by norm_num)
  refine h.trans ?_
  simp only [Finset.sum_range_succ, Finset.sum_range_zero, Nat.factorial]
  norm_num

lemma exp_q2_lb : (21050031 / 10 ^ 7 : ℝ) ≤ Real.exp (131 / 176) := by
  have h := Real.sum_le_exp_of_nonneg (x := 131 / 176) (by norm_num) 8
  refine le_trans ?_ h
  simp only [Finset.sum_range_succ, Finset.sum_range_zero, Nat.factorial]
  norm_num

lemma exp_q2_ub : Real.exp (131 / 176) ≤ 21050058 / 10 ^ 7 := by
  have h := Real.exp_bound' (x := 131 / 176) (by norm_num) (by norm_num) (n := 8) (by norm_num)
  refine h.trans ?_
  simp only [Finset.sum_range_succ, Finset.sum_range_zero, Nat.factorial]
  norm_num

lemma exp_sfc_arg : Real.exp ((1310 : ℝ) / 298) = Real.exp (655 / 1192) ^ 8 := by
  have h : ((1310 : ℝ) / 298) = ((8 : ℕ) : ℝ) * (655 / 1192) := by push_cast ; norm_num
  rw [h, Real.exp_nat_mul]

lemma exp_10_arg : Real.exp ((1310 : ℝ) / 220) = Real.exp (131 / 176) ^ 8 := by
  have h : ((1310 : ℝ) / 220) = ((8 : ℕ) : ℝ) * (131 / 176) := by push_cast ; norm_num
  rw [h, Real.exp_nat_mul]

lemma exp_sfc_bounds :
    (8112342 / 10 ^ 5 : ℝ) ≤ Real.exp (1310 / 298) ∧
      Real.exp (1310 / 298) ≤ 8112358 / 10 ^ 5 := by
  rw [exp_sfc_arg]
  constructor
  · calc (8112342 / 10 ^ 5 : ℝ) ≤ (17323805 / 10 ^ 7) ^ 8 := by norm_num
      _ ≤ Real.exp (655 / 1192) ^ 8 := pow_le_pow_left₀ (by norm_num) exp_q1_lb 8
  · calc Real.exp (655 / 1192) ^ 8 ≤ (17323809 / 10 ^ 7) ^ 8 :=
        pow_le_pow_left₀ (Real.exp_pos _).le exp_q1_ub 8
      _ ≤ 8112358 / 10 ^ 5 := by norm_num

lemma exp_10_bounds :
    (3854978 / 10 ^ 4 : ℝ) ≤ Real.exp (1310 / 220) ∧
      Real.exp (1310 / 220) ≤ 3855018 / 10 ^ 4 := by
  rw [exp_10_arg]
  constructor
  · calc (3854978 / 10 ^ 4 : ℝ) ≤ (21050031 / 10 ^ 7) ^ 8 := by norm_num
      _ ≤ Real.exp (131 / 176) ^ 8 := pow_le_pow_left₀ (by norm_num) exp_q2_lb 8
  · calc Real.exp (131 / 176) ^ 8 ≤ (21050058 / 10 ^ 7) ^ 8 :=
        pow_le_pow_left₀ (Real.exp_pos _).le exp_q2_ub 8
      _ ≤ 3855018 / 10 ^ 4 := by norm_num

/-! ### Closed forms and enclosures of the two ratios -/

lemma rat_sfc_eq : rat_sfc = (206365 / 28475027 : ℝ) * Real.exp (1310 / 298) := by
  have ht : ((t_sfc : ℚ) : ℝ) = 298 := by norm_num [t_sfc]
  have hj : ((j_no2 : ℚ) : ℝ) = 1 / 100 := by norm_num [j_no2]
  have ho3 : ((o3_sfc_c : ℚ) : ℝ) = 40678610000000000 / 41273 := by
    rw [o3_sfc_c_val] ; push_cast ; norm_num
  have hx : (-1310 : ℝ) / 298 = -(1310 / 298) := by norm_num
  have hE := Real.exp_ne_zero ((1310 : ℝ) / 298)
  rw [rat_sfc, k_sfc, ht, hj, ho3, hx, Real.exp_neg]
  field_simp
  ring

lemma rat_10_eq : rat_10 = (9141 / 1180312 : ℝ) * Real.exp (1310 / 220) := by
  have ht : ((t_10 : ℚ) : ℝ) = 220 := by norm_num [t_10]
  have hj : ((j_no2 : ℚ) : ℝ) = 1 / 100 := by norm_num [j_no2]
  have ho3 : ((o3_10_c : ℚ) : ℝ) = 8430800000000000 / 9141 := by
    rw [o3_10_c_val] ; push_cast ; norm_num
  have hx : (-1310 : ℝ) / 220 = -(1310 / 220) := by norm_num
  have hE := Real.exp_ne_zero ((1310 : ℝ) / 220)
  rw [rat_10, k_10, ht, hj, ho3, hx, Real.exp_neg]
  field_simp
  ring

lemma rat_sfc_bounds : (58791 / 10 ^ 5 : ℝ) ≤ rat_sfc ∧ rat_sfc ≤ 58793 / 10 ^ 5 := by
  obtain ⟨h1, h2⟩ := exp_sfc_bounds
  rw [rat_sfc_eq]
  constructor <;> nlinarith [h1, h2]

lemma rat_10_bounds : (29854 / 10 ^ 4 : ℝ) ≤ rat_10 ∧ rat_10 ≤ 29856 / 10 ^ 4 := by
  obtain ⟨h1, h2⟩ := exp_10_bounds
  rw [rat_10_eq]
  constructor <;> nlinarith [h1, h2]

/-! ### Claims about the ratios and lifetimes -/

/-- C4: with the literal constants of the notebook, the NO to NO2 ratio is
0.59 at the surface and 2.99 at 10 km, each within 1 percent relative
tolerance. -/
theorem rat_approx :
    |rat_sfc / (59 / 100) - 1| ≤ 1 / 100 ∧ |rat_10 / (299 / 100) - 1| ≤ 1 / 100 := by
  obtain ⟨h1, h2⟩ := rat_sfc_bounds
  obtain ⟨h3, h4⟩ := rat_10_bounds
  constructor <;> rw [abs_le] <;> constructor <;> [skip ; skip ; skip ; skip] <;>
    first
    | (rw [le_sub_iff_add_le, le_div_iff₀ (by norm_num : (0:ℝ) < 59 / 100)] ; linarith)
    | (rw [sub_le_iff_le_add, div_le_iff₀ (by norm_num : (0:ℝ) < 59 / 100)] ; linarith)
    | (rw [le_sub_iff_add_le, le_div_iff₀ (by norm_num : (0:ℝ) < 299 / 100)] ; linarith)
    | (rw [sub_le_iff_le_add, div_le_iff₀ (by norm_num : (0:ℝ) < 299 / 100)] ; linarith)

/-- C5: with the literal constants of the notebook, the NOx lifetime divided
by 3600 (the printed value in hours) is 6.81 h at the surface and 18.37 h at
10 km, each within 1 percent relative tolerance. -/
theorem tau_nox_approx :
    |tau_nox_sfc / 3600 / (681 / 100) - 1| ≤ 1 / 100 ∧
      |tau_nox_10 / 3600 / (1837 / 100) - 1| ≤ 1 / 100 := by
  obtain ⟨h1, h2⟩ := rat_sfc_bounds
  obtain ⟨h3, h4⟩ := rat_10_bounds
  have hA : ((tau_no2_sfc : ℚ) : ℝ) = 3413224476925000 / 221092313211 := by
    rw [tau_no2_sfc_val] ; push_cast ; norm_num
  have hB : ((tau_no2_10 : ℚ) : ℝ) = 576073437500 / 34713819 := by
    rw [tau_no2_10_val] ; push_cast ; norm_num
  constructor
  · have he : tau_nox_sfc / 3600 / (681 / 100) - 1 =
        (3413224476925000 / 221092313211) * (1 + rat_sfc) / 3600 / (681 / 100) - 1 := by
      rw [tau_nox_sfc, hA]
    rw [he, abs_le]
    constructor <;> nlinarith [h1, h2]
  · have he : tau_nox_10 / 3600 / (1837 / 100) - 1 =
        (576073437500 / 34713819) * (1 + rat_10) / 3600 / (1837 / 100) - 1 := by
      rw [tau_nox_10, hB]
    rw [he, abs_le]
    constructor <;> nlinarith [h3, h4]

/-- C6: at each level the NOx lifetime is the composition
`tau_nox = tau_no2 * (1 + rat)` with `tau_no2 = 1 / (kn * oh_c)` and the
termolecular rate `kn = 3.3e-30 * (temperature / 300) ^ (-3) * n2_density`,
where the N2 density is the converted one for that level. -/
theorem tau_nox_composition :
    tau_nox_sfc = (tau_no2_sfc : ℝ) * (1 + rat_sfc) ∧
      tau_nox_10 = (tau_no2_10 : ℝ) * (1 + rat_10) ∧
      tau_no2_sfc = 1 / (kn_sfc * oh_c) ∧
      tau_no2_10 = 1 / (kn_10 * oh_c) ∧
      kn_sfc = 33 / 10 ^ 31 * (t_sfc / 300) ^ (-3 : ℤ) * vol_to_dens n2 t_sfc p_sfc ∧
      kn_10 = 33 / 10 ^ 31 * (t_10 / 300) ^ (-3 : ℤ) * vol_to_dens n2 t_10 p_10 :=
  ⟨rfl, rfl, rfl, rfl, rfl, rfl⟩

/-- C8: every physical quantity the notebook computes from its literal
inputs, the converted number densities, the computed rate constants, the
critical NO concentration, both partitioning ratios and all lifetimes, is
strictly positive. -/
theorem all_quantities_pos :
    0 < ho2_c ∧ 0 < ch3o2_c ∧ 0 < o3_c ∧ 0 < o3_sfc_c ∧ 0 < o3_10_c ∧
      0 < n2_sfc_c ∧ 0 < n2_10_c ∧ 0 < k_sfc ∧ 0 < k_10 ∧ 0 < kn_sfc ∧ 0 < kn_10 ∧
      0 < no_crit ∧ 0 < rat_sfc ∧ 0 < rat_10 ∧
      0 < tau_no2_sfc ∧ 0 < tau_no2_10 ∧ 0 < tau_nox_sfc ∧ 0 < tau_nox_10 := by
  have hr1 := rat_sfc_bounds.1
  have hr2 := rat_10_bounds.1
  have htau1 : (0 : ℚ) < tau_no2_sfc := by rw [tau_no2_sfc_val] ; norm_num
  have htau2 : (0 : ℚ) < tau_no2_10 := by rw [tau_no2_10_val] ; norm_num
  have htau1R : (0 : ℝ) < (tau_no2_sfc : ℝ) := by exact_mod_cast htau1
  have htau2R : (0 : ℝ) < (tau_no2_10 : ℝ) := by exact_mod_cast htau2
  refine ⟨?_, ?_, ?_, ?_, ?_, ?_, ?_, ?_, ?_, ?_, ?_, ?_, ?_, ?_, htau1, htau2, ?_, ?_⟩
  · norm_num [ho2_c, vol_to_dens, ho2, t_sfc, p_sfc, NA, R]
  · norm_num [ch3o2_c, vol_to_dens, ch3o2, t_sfc, p_sfc, NA, R]
  · norm_num [o3_c, vol_to_dens, o3, t_sfc, p_sfc, NA, R]
  · norm_num [o3_sfc_c_val]
  · norm_num [o3_10_c_val]
  · norm_num [n2_sfc_c, vol_to_dens, n2, t_sfc, p_sfc, NA, R]
  · norm_num [n2_10_c, vol_to_dens, n2, t_10, p_10, NA, R]
  · rw [k_sfc] ; positivity
  · rw [k_10] ; positivity
  · norm_num [kn_sfc, n2_sfc_c, vol_to_dens, n2, t_sfc, p_sfc, NA, R]
  · norm_num [kn_10, n2_10_c, vol_to_dens, n2, t_10, p_10, NA, R]
  · norm_num [no_crit, o3_c, ho2_c, ch3o2_c, vol_to_dens, k1, k2, k1_l, k2_l, f,
      j_o1d, oh_c, ho2, ch3o2, o3, t_sfc, p_sfc, NA, R]
  · linarith
  · linarith
  · rw [tau_nox_sfc] ; exact mul_pos htau1R (by linarith)
  · rw [tau_nox_10] ; exact mul_pos htau2R (by linarith)

/-- C10: at each level the NOx lifetime strictly exceeds the NO2 lifetime,
because the partitioning ratio is strictly positive. -/
theorem tau_nox_gt_tau_no2 :
    (tau_no2_sfc : ℝ) < tau_nox_sfc ∧ (tau_no2_10 : ℝ) < tau_nox_10 := by
  have hr1 := rat_sfc_bounds.1
  have hr2 := rat_10_bounds.1
  have htau1 : (0 : ℚ) < tau_no2_sfc := by rw [tau_no2_sfc_val] ; norm_num
  have htau2 : (0 : ℚ) < tau_no2_10 := by rw [tau_no2_10_val] ; norm_num
  have htau1R : (0 : ℝ) < (tau_no2_sfc : ℝ) := by exact_mod_cast htau1
  have htau2R : (0 : ℝ) < (tau_no2_10 : ℝ) := by exact_mod_cast htau2
  constructor
  · rw [tau_nox_sfc] ; nlinarith
  · rw [tau_nox_10] ; nlinarith

/-- C3 counterexample: called with the non-positive temperature -1, the
converter returns an ordinary finite value, and a negative (physically
meaningless) one at that; no InvalidInput error is surfaced, since the
notebook performs no input validation. -/
theorem no_invalid_input_error :
    vol_to_dens_run 1 (-1) 1 = some (-(60220000000000000000 / 831)) ∧
      vol_to_dens 1 (-1) 1 < 0 := by
  constructor
  · norm_num [vol_to_dens_run, NA, R]
  · norm_num [vol_to_dens, NA, R]

/-- C3 amended: the only runtime fault of the converter is a zero
denominator, i.e. temperature 0, surfaced by Python as an explicit
ZeroDivisionError (modelled as `none`); a non-positive temperature or
pressure is accepted silently and is not surfaced as any error; and with the
literal inputs of the notebook every denominator of the critical-NO, ratio
and lifetime formulas is nonzero, so the actual run has no fault at all. -/
theorem fault_semantics :
    (∀ v t p : ℚ, vol_to_dens_run v t p = none ↔ t = 0) ∧
      (vol_to_dens_run 1 (-1) 1).isSome = true ∧
      k1 * ho2_c + k2 * ch3o2_c ≠ 0 ∧
      kn_sfc * oh_c ≠ 0 ∧ kn_10 * oh_c ≠ 0 ∧
      k_sfc * (o3_sfc_c : ℝ) ≠ 0 ∧ k_10 * (o3_10_c : ℝ) ≠ 0 := by
  have hden : ∀ t : ℚ, R * t * 10 ^ 6 = 0 ↔ t = 0 := by
    intro t
    rw [R]
    constructor
    · intro h
      rcases mul_eq_zero.1 h with h1 | h1
      · rcases mul_eq_zero.1 h1 with h2 | h2
        · norm_num at h2
        · exact h2
      · norm_num at h1
    · intro h ; rw [h] ; ring
  refine ⟨?_, ?_, ?_, ?_, ?_, ?_, ?_⟩
  · intro v t p
    simp only [vol_to_dens_run]
    split_ifs with h
    · simp [(hden t).1 h]
    · simp only [reduceCtorEq, false_iff]
      exact fun hh => h ((hden t).2 hh)
  · norm_num [vol_to_dens_run, R]
  · norm_num [k1, k2, ho2_c, ch3o2_c, vol_to_dens, ho2, ch3o2, t_sfc, p_sfc, NA, R]
  · norm_num [kn_sfc, n2_sfc_c, vol_to_dens, n2, t_sfc, p_sfc, NA, R, oh_c]
  · norm_num [kn_10, n2_10_c, vol_to_dens, n2, t_10, p_10, NA, R, oh_c]
  · refine mul_ne_zero ?_ ?_
    · rw [k_sfc] ; positivity
    · rw [o3_sfc_c_val] ; push_cast ; norm_num
  · refine mul_ne_zero ?_ ?_
    · rw [k_10] ; positivity
    · rw [o3_10_c_val] ; push_cast ; norm_num

/-- Witness for the amended C3: the converter call does raise at temperature
0, by the first component of the fault semantics applied at `v = 3, t = 0,
p = 5`. -/
theorem fault_semantics_witness : vol_to_dens_run 3 0 5 = none :=
  (fault_semantics.1 3 0 5).mpr rfl

end Hu1
